import Mathlib

/-!
Shallow embedding of the `sakobu/result` TypeScript library
(src/core/Result.ts, src/core/AsyncResult.ts, src/types/index.ts)
and proofs of the specified properties.

Modelling conventions:
- The tagged union `ResultData<E, A>` becomes the inductive `ResultData`.
- A JavaScript value that may be `null` or `undefined` becomes `Nullable`;
  the loose equality test `value == null` becomes `Nullable.looseEqNull`,
  which is true exactly on the two null-ish values (JS semantics of `== null`).
- A computation that may throw a value of unknown shape (the thunk given to
  `tryCatch`, the promise given to `fromPromise`) is embedded as its settled
  outcome `Except C A`: `.ok v` when it returns/resolves with `v`,
  `.error c` when it throws/rejects with `c`.
- A method that may throw returns `Except`: `.error` is the thrown/rejected
  outcome. Methods with a plain Lean return type cannot raise; this embodies
  the library's "returns rather than raises" contract for those methods.
- JS implicit stringification in a template literal is an explicit
  `showE : E → String` argument.
- An `AsyncResult` instance is its internal promise (already settled, since
  JS promises settle once) together with the private memoization slot
  `resolvedData`. Methods are state passing: they return the produced value,
  the receiver's state after the call, and how many times the call awaited
  the receiver's wrapped promise (the observable for the at-most-once
  evaluation contract). Caller-supplied functions are total Lean functions,
  matching the spec's assumption that they do not raise.
-/

namespace ResultSpec

/-- Internal type representing the two possible states of a Result
(src/types/index.ts `ResultData`). -/
inductive ResultData (E A : Type) where
  | Ok (value : A)
  | Err (error : E)
deriving DecidableEq, Repr

/-- The misuse error thrown by the wrong-variant unwraps: the source throws
a JS `Error` carrying this message (the spec calls it `UnwrapError`). -/
structure UnwrapError where
  message : String
deriving DecidableEq, Repr

/-- A JS value that may be `null` or `undefined` besides proper values of `A`. -/
inductive Nullable (A : Type) where
  | jsNull
  | jsUndefined
  | val (a : A)
deriving DecidableEq, Repr

/-- JS loose equality against null: `v == null` is true exactly when `v` is
`null` or `undefined`. -/
def Nullable.looseEqNull {A : Type} : Nullable A → Bool
  | .jsNull => true
  | .jsUndefined => true
  | .val _ => false

/-- Extract the proper value from a `Nullable` known not to be null-ish. -/
def Nullable.getVal {A : Type} : (v : Nullable A) → v.looseEqNull = false → A
  | .val a, _ => a
  | .jsNull, h => nomatch h
  | .jsUndefined, h => nomatch h

/-- A JS number: either NaN or an ordinary numeric value (used only to show
that the falsy value NaN is not treated as null-ish). -/
inductive JSNumber where
  | nan
  | num (x : Int)
deriving DecidableEq, Repr

/-- The synchronous Result class: a wrapper owning its tagged union
(src/core/Result.ts, `private readonly data`). -/
structure Result (E A : Type) where
  data : ResultData E A
deriving DecidableEq, Repr

/-- `Result.ok`: wraps a success value. -/
def Result.ok {E A : Type} (value : A) : Result E A :=
  ⟨ResultData.Ok value⟩

/-- `Result.err`: wraps an error value. -/
def Result.err {E A : Type} (error : E) : Result E A :=
  ⟨ResultData.Err error⟩

/-- `Result.fromNullableWithError`: `value == null ? Result.err(error)
: Result.ok(value)`. -/
def Result.fromNullableWithError {E A : Type} (error : E) (value : Nullable A) :
    Result E A :=
  if h : value.looseEqNull then Result.err error
  else Result.ok (value.getVal (by simpa using h))

/-- `Result.tryCatch`: `f` stands for the settled outcome of invoking the
supplied thunk (`.ok v` = returned `v`, `.error c` = threw `c`); a thrown
value is caught and transformed by `onError`. -/
def Result.tryCatch {E A C : Type} (f : Except C A) (onError : C → E) :
    Result E A :=
  match f with
  | .ok v => Result.ok v
  | .error c => Result.err (onError c)

/-- `Result.rMap`: ternary on `this.data._tag`. -/
def Result.rMap {E A B : Type} (r : Result E A) (f : A → B) : Result E B :=
  match r.data with
  | .Ok v => Result.ok (f v)
  | .Err e => Result.err e

/-- `Result.rMapErr`: ternary on `this.data._tag`. -/
def Result.rMapErr {E A F : Type} (r : Result E A) (f : E → F) : Result F A :=
  match r.data with
  | .Err e => Result.err (f e)
  | .Ok v => Result.ok v

/-- `Result.chain`: on Ok applies `f` and returns its result directly;
on Err rebuilds a failure with the same error. (The TS error-type widening
`E | F` is a static-only behavior; both error types are unified into `E`.) -/
def Result.chain {E A B : Type} (r : Result E A) (f : A → Result E B) :
    Result E B :=
  match r.data with
  | .Ok v => f v
  | .Err e => Result.err e

/-- `Result.match` (named `matchWith` here because `match` is reserved):
total pattern match, invoking exactly one branch. -/
def Result.matchWith {E A B : Type} (r : Result E A) (onErr : E → B)
    (onOk : A → B) : B :=
  match r.data with
  | .Ok v => onOk v
  | .Err e => onErr e

/-- `Result.unwrap`: returns the success value, or throws an Error whose
message interpolates the stringified error. -/
def Result.unwrap {E A : Type} (r : Result E A) (showE : E → String) :
    Except UnwrapError A :=
  match r.data with
  | .Ok v => .ok v
  | .Err e => .error ⟨"Called unwrap on an Err value: " ++ showE e⟩

/-- `Result.unwrapOr`: the success value, else the provided default. -/
def Result.unwrapOr {E A : Type} (r : Result E A) (defaultValue : A) : A :=
  match r.data with
  | .Ok v => v
  | .Err _ => defaultValue

/-- `Result.unwrapErr`: returns the error value, or throws. -/
def Result.unwrapErr {E A : Type} (r : Result E A) : Except UnwrapError E :=
  match r.data with
  | .Err e => .ok e
  | .Ok _ => .error ⟨"Called unwrapErr on an Ok value"⟩

/-- `Result.toPromise`: a settled promise, `.ok` = resolved with the success
value, `.error` = rejected with the error value. -/
def Result.toPromise {E A : Type} (r : Result E A) : Except E A :=
  match r.data with
  | .Ok v => .ok v
  | .Err e => .error e

/-- `Result.isOk` tag predicate. -/
def Result.isOk {E A : Type} (r : Result E A) : Bool :=
  match r.data with
  | .Ok _ => true
  | .Err _ => false

/-- `Result.isErr` tag predicate. -/
def Result.isErr {E A : Type} (r : Result E A) : Bool :=
  match r.data with
  | .Ok _ => false
  | .Err _ => true

/-- A JS promise as its settled state: resolved with a value of `T` or
rejected with some reason (stringified). -/
inductive JSPromise (T : Type) where
  | resolved (t : T)
  | rejected (reason : String)
deriving DecidableEq, Repr

/-- How an async method's returned promise can reject: the internal promise
itself rejected, an UnwrapError was thrown (misuse), or a represented error
was deliberately thrown (`toPromise`). -/
inductive Reject (E : Type) where
  | promiseRejection (reason : String)
  | unwrapError (u : UnwrapError)
  | thrownError (error : E)
deriving DecidableEq, Repr

/-- The AsyncResult class: the internal promise handed to the constructor,
plus the private memoization slot `resolvedData` (JS `null` = `none`). -/
structure AsyncResult (E A : Type) where
  promise : JSPromise (ResultData E A)
  resolvedData : Option (ResultData E A)
deriving DecidableEq, Repr

/-- JS truthiness of the memoization slot as tested by
`if (!this.resolvedData)`: the initial `null` is falsy; every stored value
is a tagged-union object `\x7b _tag, ... \x7d`, and objects are truthy. -/
def slotIsTruthy {E A : Type} : Option (ResultData E A) → Bool
  | none => false
  | some _ => true

/-- `AsyncResult.getResolvedData`: if the slot is falsy (still null), await
the internal promise, store the result, and return it, counting one await of
the wrapped promise; otherwise return the stored tagged union with no await.
Awaiting a rejected internal promise throws its reason (`.error reason`)
and leaves the slot unwritten. -/
def AsyncResult.getResolvedData {E A : Type} (r : AsyncResult E A) :
    Except String (ResultData E A) × AsyncResult E A × Nat :=
  match r.resolvedData with
  | some d => (.ok d, r, 0)
  | none =>
    match r.promise with
    | .resolved d => (.ok d, ⟨r.promise, some d⟩, 1)
    | .rejected reason => (.error reason, r, 1)

/-- `AsyncResult.ok`: a fresh instance whose internal promise is
`Promise.resolve(\x7b _tag: 'Ok', value \x7d)` and whose slot is null.
(A deferred input is represented by its resolved value.) -/
def AsyncResult.ok {E A : Type} (value : A) : AsyncResult E A :=
  ⟨JSPromise.resolved (ResultData.Ok value), none⟩

/-- `AsyncResult.err`: a fresh instance resolved to the Err tagged union. -/
def AsyncResult.err {E A : Type} (error : E) : AsyncResult E A :=
  ⟨JSPromise.resolved (ResultData.Err error), none⟩

/-- `AsyncResult.fromNullableWithError`: same null-check policy as the
synchronous version, on the awaited input. -/
def AsyncResult.fromNullableWithError {E A : Type} (error : E)
    (value : Nullable A) : AsyncResult E A :=
  if h : value.looseEqNull then AsyncResult.err error
  else AsyncResult.ok (value.getVal (by simpa using h))

/-- `AsyncResult.tryCatch`: `f` is the settled outcome of `await f()`;
a thrown/rejected value is transformed by `onError`. -/
def AsyncResult.tryCatch {E A C : Type} (f : Except C A) (onError : C → E) :
    AsyncResult E A :=
  match f with
  | .ok v => AsyncResult.ok v
  | .error c => AsyncResult.err (onError c)

/-- `AsyncResult.fromPromise`: same wrapping policy on an already-created
promise's settled outcome. -/
def AsyncResult.fromPromise {E A C : Type} (promise : Except C A)
    (onError : C → E) : AsyncResult E A :=
  match promise with
  | .ok v => AsyncResult.ok v
  | .error c => AsyncResult.err (onError c)

/-- What the function given to `AsyncResult.chain` returned after awaiting:
either an actual AsyncResult instance (`instanceof AsyncResult` succeeds)
or a plain resolved value. -/
inductive ChainRet (E B : Type) where
  | asyncRes (r : AsyncResult E B)
  | plain (b : B)

/-- `AsyncResult.rMap`: resolve the receiver once; on Ok wrap `f value` as a
fresh success, on Err propagate the error into a fresh failure. -/
def AsyncResult.rMap {E A B : Type} (r : AsyncResult E A) (f : A → B) :
    Except (Reject E) (AsyncResult E B) × AsyncResult E A × Nat :=
  match r.getResolvedData with
  | (.ok (.Ok v), rest) => (.ok (AsyncResult.ok (f v)), rest)
  | (.ok (.Err e), rest) => (.ok (AsyncResult.err e), rest)
  | (.error reason, rest) => (.error (.promiseRejection reason), rest)

/-- `AsyncResult.rMapErr`: symmetric on the error channel. -/
def AsyncResult.rMapErr {E A F : Type} (r : AsyncResult E A) (f : E → F) :
    Except (Reject F) (AsyncResult F A) × AsyncResult E A × Nat :=
  match r.getResolvedData with
  | (.ok (.Err e), rest) => (.ok (AsyncResult.err (f e)), rest)
  | (.ok (.Ok v), rest) => (.ok (AsyncResult.ok v), rest)
  | (.error reason, rest) => (.error (.promiseRejection reason), rest)

/-- `AsyncResult.chain`: on Ok, await `f value`; if it is an AsyncResult
instance return it as-is, otherwise re-wrap the plain value as a success;
on Err, short-circuit into a fresh failure with the same error. -/
def AsyncResult.chain {E A B : Type} (r : AsyncResult E A)
    (f : A → ChainRet E B) :
    Except (Reject E) (AsyncResult E B) × AsyncResult E A × Nat :=
  match r.getResolvedData with
  | (.ok (.Ok v), rest) =>
      (match f v with
       | .asyncRes res => (.ok res, rest)
       | .plain b => (.ok (AsyncResult.ok b), rest))
  | (.ok (.Err e), rest) => (.ok (AsyncResult.err e), rest)
  | (.error reason, rest) => (.error (.promiseRejection reason), rest)

/-- `AsyncResult.match` (`matchWith` here): resolve once, invoke exactly one
branch. -/
def AsyncResult.matchWith {E A B : Type} (r : AsyncResult E A)
    (onErr : E → B) (onOk : A → B) :
    Except (Reject E) B × AsyncResult E A × Nat :=
  match r.getResolvedData with
  | (.ok (.Ok v), rest) => (.ok (onOk v), rest)
  | (.ok (.Err e), rest) => (.ok (onErr e), rest)
  | (.error reason, rest) => (.error (.promiseRejection reason), rest)

/-- `AsyncResult.unwrap`: resolve once; the success value, or a thrown Error
whose message interpolates the stringified error. -/
def AsyncResult.unwrap {E A : Type} (r : AsyncResult E A)
    (showE : E → String) : Except (Reject E) A × AsyncResult E A × Nat :=
  match r.getResolvedData with
  | (.ok (.Ok v), rest) => (.ok v, rest)
  | (.ok (.Err e), rest) =>
      (.error (.unwrapError ⟨"Called unwrap on an Err value: " ++ showE e⟩),
       rest)
  | (.error reason, rest) => (.error (.promiseRejection reason), rest)

/-- `AsyncResult.unwrapOr`: resolve once; the success value or the default. -/
def AsyncResult.unwrapOr {E A : Type} (r : AsyncResult E A)
    (defaultValue : A) : Except (Reject E) A × AsyncResult E A × Nat :=
  match r.getResolvedData with
  | (.ok (.Ok v), rest) => (.ok v, rest)
  | (.ok (.Err _), rest) => (.ok defaultValue, rest)
  | (.error reason, rest) => (.error (.promiseRejection reason), rest)

/-- `AsyncResult.unwrapErr`: resolve once; the error value, or a thrown
Error on a success. -/
def AsyncResult.unwrapErr {E A : Type} (r : AsyncResult E A) :
    Except (Reject E) E × AsyncResult E A × Nat :=
  match r.getResolvedData with
  | (.ok (.Err e), rest) => (.ok e, rest)
  | (.ok (.Ok _), rest) =>
      (.error (.unwrapError ⟨"Called unwrapErr on an Ok value"⟩), rest)
  | (.error reason, rest) => (.error (.promiseRejection reason), rest)

/-- `AsyncResult.toPromise`: resolve once; return the success value, or
throw the represented error itself (`throw data.error`). -/
def AsyncResult.toPromise {E A : Type} (r : AsyncResult E A) :
    Except (Reject E) A × AsyncResult E A × Nat :=
  match r.getResolvedData with
  | (.ok (.Ok v), rest) => (.ok v, rest)
  | (.ok (.Err e), rest) => (.error (.thrownError e), rest)
  | (.error reason, rest) => (.error (.promiseRejection reason), rest)

/-- `AsyncResult.isOk`. -/
def AsyncResult.isOk {E A : Type} (r : AsyncResult E A) :
    Except (Reject E) Bool × AsyncResult E A × Nat :=
  match r.getResolvedData with
  | (.ok (.Ok _), rest) => (.ok true, rest)
  | (.ok (.Err _), rest) => (.ok false, rest)
  | (.error reason, rest) => (.error (.promiseRejection reason), rest)

/-- `AsyncResult.isErr`. -/
def AsyncResult.isErr {E A : Type} (r : AsyncResult E A) :
    Except (Reject E) Bool × AsyncResult E A × Nat :=
  match r.getResolvedData with
  | (.ok (.Ok _), rest) => (.ok false, rest)
  | (.ok (.Err _), rest) => (.ok true, rest)
  | (.error reason, rest) => (.error (.promiseRejection reason), rest)

/-- The receiver's state after one call to `getResolvedData`. -/
def AsyncResult.afterAccess {E A : Type} (r : AsyncResult E A) :
    AsyncResult E A :=
  r.getResolvedData.2.1

/-- How many times one call to `getResolvedData` awaited the wrapped promise. -/
def AsyncResult.accessEvals {E A : Type} (r : AsyncResult E A) : Nat :=
  r.getResolvedData.2.2

/-- Total awaits of the wrapped promise over `n` successive method calls on
the same instance (each method performs exactly one `getResolvedData`). -/
def AsyncResult.runAccesses {E A : Type} : Nat → AsyncResult E A → Nat
  | 0, _ => 0
  | Nat.succ n, r => r.accessEvals + AsyncResult.runAccesses n r.afterAccess

/-- Every method call interacts with the receiver exactly as one memoized
access: `rMap` leaves the receiver in the post-access state and performs the
access's awaits. -/
theorem AsyncResult.rMap_effect {E A B : Type} (r : AsyncResult E A)
    (f : A → B) : (r.rMap f).2 = r.getResolvedData.2 := by
  obtain ⟨p, s⟩ := r
  rcases s with _ | d
  · rcases p with d | reason
    · rcases d with v | e <;> rfl
    · rfl
  · rcases d with v | e <;> rfl

/-- Receiver effect of `rMapErr` is one memoized access. -/
theorem AsyncResult.rMapErr_effect {E A F : Type} (r : AsyncResult E A)
    (f : E → F) : (r.rMapErr f).2 = r.getResolvedData.2 := by
  obtain ⟨p, s⟩ := r
  rcases s with _ | d
  · rcases p with d | reason
    · rcases d with v | e <;> rfl
    · rfl
  · rcases d with v | e <;> rfl

/-- Receiver effect of `chain` is one memoized access. -/
theorem AsyncResult.chain_effect {E A B : Type} (r : AsyncResult E A)
    (f : A → ChainRet E B) : (r.chain f).2 = r.getResolvedData.2 := by
  obtain ⟨p, s⟩ := r
  rcases s with _ | d
  · rcases p with d | reason
    · rcases d with v | e
      · rcases h : f v with res | b <;>
          simp [AsyncResult.chain, AsyncResult.getResolvedData, h]
      · rfl
    · rfl
  · rcases d with v | e
    · rcases h : f v with res | b <;>
        simp [AsyncResult.chain, AsyncResult.getResolvedData, h]
    · rfl

/-- Receiver effect of `matchWith` is one memoized access. -/
theorem AsyncResult.matchWith_effect {E A B : Type} (r : AsyncResult E A)
    (onErr : E → B) (onOk : A → B) :
    (r.matchWith onErr onOk).2 = r.getResolvedData.2 := by
  obtain ⟨p, s⟩ := r
  rcases s with _ | d
  · rcases p with d | reason
    · rcases d with v | e <;> rfl
    · rfl
  · rcases d with v | e <;> rfl

/-- Receiver effect of `unwrap` is one memoized access. -/
theorem AsyncResult.unwrap_effect {E A : Type} (r : AsyncResult E A)
    (showE : E → String) : (r.unwrap showE).2 = r.getResolvedData.2 := by
  obtain ⟨p, s⟩ := r
  rcases s with _ | d
  · rcases p with d | reason
    · rcases d with v | e <;> rfl
    · rfl
  · rcases d with v | e <;> rfl

/-- Receiver effect of `unwrapOr` is one memoized access. -/
theorem AsyncResult.unwrapOr_effect {E A : Type} (r : AsyncResult E A)
    (defaultValue : A) : (r.unwrapOr defaultValue).2 = r.getResolvedData.2 := by
  obtain ⟨p, s⟩ := r
  rcases s with _ | d
  · rcases p with d | reason
    · rcases d with v | e <;> rfl
    · rfl
  · rcases d with v | e <;> rfl

/-- Receiver effect of `unwrapErr` is one memoized access. -/
theorem AsyncResult.unwrapErr_effect {E A : Type} (r : AsyncResult E A) :
    r.unwrapErr.2 = r.getResolvedData.2 := by
  obtain ⟨p, s⟩ := r
  rcases s with _ | d
  · rcases p with d | reason
    · rcases d with v | e <;> rfl
    · rfl
  · rcases d with v | e <;> rfl

/-- Receiver effect of `toPromise` is one memoized access. -/
theorem AsyncResult.toPromise_effect {E A : Type} (r : AsyncResult E A) :
    r.toPromise.2 = r.getResolvedData.2 := by
  obtain ⟨p, s⟩ := r
  rcases s with _ | d
  · rcases p with d | reason
    · rcases d with v | e <;> rfl
    · rfl
  · rcases d with v | e <;> rfl

/-- Receiver effect of `isOk` is one memoized access. -/
theorem AsyncResult.isOk_effect {E A : Type} (r : AsyncResult E A) :
    r.isOk.2 = r.getResolvedData.2 := by
  obtain ⟨p, s⟩ := r
  rcases s with _ | d
  · rcases p with d | reason
    · rcases d with v | e <;> rfl
    · rfl
  · rcases d with v | e <;> rfl

/-- Receiver effect of `isErr` is one memoized access. -/
theorem AsyncResult.isErr_effect {E A : Type} (r : AsyncResult E A) :
    r.isErr.2 = r.getResolvedData.2 := by
  obtain ⟨p, s⟩ := r
  rcases s with _ | d
  · rcases p with d | reason
    · rcases d with v | e <;> rfl
    · rfl
  · rcases d with v | e <;> rfl

/-- A populated memoization slot is never re-awaited: any number of further
accesses performs zero awaits of the wrapped promise. -/
theorem AsyncResult.runAccesses_populated {E A : Type} (n : Nat)
    (p : JSPromise (ResultData E A)) (d : ResultData E A) :
    AsyncResult.runAccesses n ⟨p, some d⟩ = 0 := by
  induction n with
  | zero => rfl
  | succ n ih =>
    simp [AsyncResult.runAccesses, AsyncResult.accessEvals,
          AsyncResult.afterAccess, AsyncResult.getResolvedData, ih]

/-- From a fresh instance with a resolved internal promise, any number of
accesses awaits the wrapped promise at most once. -/
theorem AsyncResult.runAccesses_fresh {E A : Type} (n : Nat)
    (d : ResultData E A) :
    AsyncResult.runAccesses n ⟨JSPromise.resolved d, none⟩ ≤ 1 := by
  cases n with
  | zero => exact Nat.zero_le 1
  | succ n =>
    have h := AsyncResult.runAccesses_populated (E := E) (A := A) n
      (JSPromise.resolved d) d
    simp [AsyncResult.runAccesses, AsyncResult.accessEvals,
          AsyncResult.afterAccess, AsyncResult.getResolvedData, h]

/-- C1: for every error `e`, `unwrap()` on a Failure carrying `e` (both the
synchronous and the asynchronous variant) throws an UnwrapError whose message
includes the stringified error, and `unwrapErr()` on any Success throws an
UnwrapError; these wrong-variant unwraps error exactly on the wrong variant
(unwrap errors iff `isErr`, unwrapErr errors iff `isOk`), and they are the
only raising operations: every other synchronous operation has a plain,
non-throwing return type in this embedding, and `toPromise` on a Failure
returns a rejected promise carrying the represented error rather than
raising an UnwrapError. -/
theorem claim_C1 :
    (∀ (E A : Type) (e : E) (showE : E → String),
      (Result.err e : Result E A).unwrap showE
        = Except.error ⟨"Called unwrap on an Err value: " ++ showE e⟩
      ∧ ∃ pre, "Called unwrap on an Err value: " ++ showE e = pre ++ showE e)
  ∧ (∀ (E A : Type) (e : E) (showE : E → String),
      ((AsyncResult.err e : AsyncResult E A).unwrap showE).1
        = Except.error (Reject.unwrapError
            ⟨"Called unwrap on an Err value: " ++ showE e⟩))
  ∧ (∀ (E A : Type) (v : A),
      (Result.ok v : Result E A).unwrapErr
        = Except.error ⟨"Called unwrapErr on an Ok value"⟩)
  ∧ (∀ (E A : Type) (v : A),
      ((AsyncResult.ok v : AsyncResult E A).unwrapErr).1
        = Except.error (Reject.unwrapError ⟨"Called unwrapErr on an Ok value"⟩))
  ∧ (∀ (E A : Type) (r : Result E A) (showE : E → String),
      (∃ u, r.unwrap showE = Except.error u) ↔ r.isErr = true)
  ∧ (∀ (E A : Type) (r : Result E A),
      (∃ u, r.unwrapErr = Except.error u) ↔ r.isOk = true)
  ∧ (∀ (E A : Type) (e : E),
      (Result.err e : Result E A).toPromise = Except.error e) := by
  refine ⟨?_, ?_, ?_, ?_, ?_, ?_, ?_⟩
  · intro E A e showE
    exact ⟨rfl, "Called unwrap on an Err value: ", rfl⟩
  · intro E A e showE
    rfl
  · intro E A v
    rfl
  · intro E A v
    rfl
  · intro E A r showE
    obtain ⟨d⟩ := r
    cases d <;> simp [Result.unwrap, Result.isErr]
  · intro E A r
    obtain ⟨d⟩ := r
    cases d <;> simp [Result.unwrapErr, Result.isOk]
  · intro E A e
    rfl

/-- C2: every combinator and accessor of the asynchronous variant interacts
with the receiver exactly as one memoized access (same post state, same
await count), a fresh resolved instance's first access stores the tagged
union and awaits once, a populated slot is read back with zero awaits, and
any number of successive calls on an instance born with an empty slot and a
resolved internal promise awaits the wrapped deferred computation at most
once in total. -/
theorem claim_C2 :
    (∀ (E A B : Type) (r : AsyncResult E A) (f : A → B),
      (r.rMap f).2 = r.getResolvedData.2)
  ∧ (∀ (E A F : Type) (r : AsyncResult E A) (f : E → F),
      (r.rMapErr f).2 = r.getResolvedData.2)
  ∧ (∀ (E A B : Type) (r : AsyncResult E A) (f : A → ChainRet E B),
      (r.chain f).2 = r.getResolvedData.2)
  ∧ (∀ (E A B : Type) (r : AsyncResult E A) (onErr : E → B) (onOk : A → B),
      (r.matchWith onErr onOk).2 = r.getResolvedData.2)
  ∧ (∀ (E A : Type) (r : AsyncResult E A) (showE : E → String),
      (r.unwrap showE).2 = r.getResolvedData.2)
  ∧ (∀ (E A : Type) (r : AsyncResult E A) (defaultValue : A),
      (r.unwrapOr defaultValue).2 = r.getResolvedData.2)
  ∧ (∀ (E A : Type) (r : AsyncResult E A),
      r.unwrapErr.2 = r.getResolvedData.2)
  ∧ (∀ (E A : Type) (r : AsyncResult E A),
      r.toPromise.2 = r.getResolvedData.2)
  ∧ (∀ (E A : Type) (r : AsyncResult E A),
      r.isOk.2 = r.getResolvedData.2)
  ∧ (∀ (E A : Type) (r : AsyncResult E A),
      r.isErr.2 = r.getResolvedData.2)
  ∧ (∀ (E A : Type) (d : ResultData E A),
      (AsyncResult.mk (JSPromise.resolved d) none).getResolvedData
        = (Except.ok d, AsyncResult.mk (JSPromise.resolved d) (some d), 1))
  ∧ (∀ (E A : Type) (p : JSPromise (ResultData E A)) (d : ResultData E A),
      (AsyncResult.mk p (some d)).getResolvedData
        = (Except.ok d, AsyncResult.mk p (some d), 0))
  ∧ (∀ (E A : Type) (d : ResultData E A) (n : Nat),
      AsyncResult.runAccesses n
        (AsyncResult.mk (JSPromise.resolved d) none) ≤ 1) := by
  refine ⟨?_, ?_, ?_, ?_, ?_, ?_, ?_, ?_, ?_, ?_, ?_, ?_, ?_⟩
  · intro E A B r f
    exact AsyncResult.rMap_effect r f
  · intro E A F r f
    exact AsyncResult.rMapErr_effect r f
  · intro E A B r f
    exact AsyncResult.chain_effect r f
  · intro E A B r onErr onOk
    exact AsyncResult.matchWith_effect r onErr onOk
  · intro E A r showE
    exact AsyncResult.unwrap_effect r showE
  · intro E A r defaultValue
    exact AsyncResult.unwrapOr_effect r defaultValue
  · intro E A r
    exact AsyncResult.unwrapErr_effect r
  · intro E A r
    exact AsyncResult.toPromise_effect r
  · intro E A r
    exact AsyncResult.isOk_effect r
  · intro E A r
    exact AsyncResult.isErr_effect r
  · intro E A d
    rfl
  · intro E A p d
    rfl
  · intro E A d n
    exact AsyncResult.runAccesses_fresh n d

/-- C3: the synchronous `chain` is associative: for every outcome `r` and
all outcome-returning functions `f` and `g`,
`r.chain(f).chain(g)` equals `r.chain(x => f(x).chain(g))`. -/
theorem claim_C3 : ∀ (E A B C : Type) (r : Result E A)
    (f : A → Result E B) (g : B → Result E C),
    (r.chain f).chain g = r.chain (fun x => (f x).chain g) := by
  intro E A B C r f g
  obtain ⟨d⟩ := r
  cases d <;> rfl

/-- C4: functor law for the synchronous map: `ok(v).map(f).unwrap()` yields
`f(v)`, `err(e).map(f).unwrapErr()` yields `e`, and on the Failure path the
result does not depend on `f` at all (`f` is never invoked): `err(e).map(f)`
is `err(e)` for every `f`. -/
theorem claim_C4 :
    (∀ (E A B : Type) (v : A) (f : A → B) (showE : E → String),
      ((Result.ok v : Result E A).rMap f).unwrap showE = Except.ok (f v))
  ∧ (∀ (E A B : Type) (e : E) (f : A → B),
      ((Result.err e : Result E A).rMap f).unwrapErr = Except.ok e)
  ∧ (∀ (E A B : Type) (e : E) (f : A → B),
      (Result.err e : Result E A).rMap f = Result.err e) := by
  refine ⟨?_, ?_, ?_⟩
  · intro E A B v f showE
    rfl
  · intro E A B e f
    rfl
  · intro E A B e f
    rfl

/-- C5: left identity / short-circuit for the synchronous chain: for every
error `e` and every `f`, `err(e).chain(f)` equals `err(e)` — the original
failure unchanged — and the result does not depend on `f` (`f` is never
invoked). -/
theorem claim_C5 : ∀ (E A B : Type) (e : E) (f : A → Result E B),
    (Result.err e : Result E A).chain f = Result.err e := by
  intro E A B e f
  rfl

/-- C6: `fromNullableWithError(e, null)` and
`fromNullableWithError(e, undefined)` both yield `Failure(e)`; every value
that is neither null nor undefined — including the falsy values 0, the
empty string, false and NaN — yields `Success(value)`; and the null test is
the loose equality check against null, true exactly on null and undefined. -/
theorem claim_C6 :
    (∀ (E A : Type) (e : E),
      (Result.fromNullableWithError e Nullable.jsNull : Result E A)
        = Result.err e)
  ∧ (∀ (E A : Type) (e : E),
      (Result.fromNullableWithError e Nullable.jsUndefined : Result E A)
        = Result.err e)
  ∧ (∀ (E A : Type) (e : E) (a : A),
      Result.fromNullableWithError e (Nullable.val a) = Result.ok a)
  ∧ (∀ (A : Type) (v : Nullable A),
      v.looseEqNull = true ↔ v = Nullable.jsNull ∨ v = Nullable.jsUndefined)
  ∧ Result.fromNullableWithError "missing" (Nullable.val (0 : Int))
      = Result.ok 0
  ∧ Result.fromNullableWithError "missing" (Nullable.val "")
      = Result.ok ""
  ∧ Result.fromNullableWithError "missing" (Nullable.val false)
      = Result.ok false
  ∧ Result.fromNullableWithError "missing" (Nullable.val JSNumber.nan)
      = Result.ok JSNumber.nan := by
  refine ⟨?_, ?_, ?_, ?_, ?_, ?_, ?_, ?_⟩
  · intro E A e
    rfl
  · intro E A e
    rfl
  · intro E A e a
    rfl
  · intro A v
    cases v <;> simp [Nullable.looseEqNull]
  · rfl
  · rfl
  · rfl
  · rfl

/-- C7: synchronous `tryCatch`: when the thunk returns normally with `v` the
result is `Success(v)`, independently of `onError` (so `onError` is never
invoked); when the thunk raises `c`, the raised value is caught and the
result is `Failure(onError(c))`. (The transformer `onError` is a total
function in this embedding, matching the precondition that it does not
raise.) -/
theorem claim_C7 :
    (∀ (E A C : Type) (v : A) (onError : C → E),
      Result.tryCatch (Except.ok v) onError = Result.ok v)
  ∧ (∀ (E A C : Type) (c : C) (onError : C → E),
      Result.tryCatch (Except.error c : Except C A) onError
        = Result.err (onError c)) := by
  refine ⟨?_, ?_⟩
  · intro E A C v onError
    rfl
  · intro E A C c onError
    rfl

/-- C8: asynchronous `chain`: on a Success, `f` receives the success value;
when its awaited result is an AsyncOutcome instance it is returned as-is,
and when it is a plain resolved value it is re-wrapped as a successful
AsyncOutcome; on a Failure, the result is a Failure carrying the same error,
independently of `f` (short-circuit, `f` is never invoked). -/
theorem claim_C8 :
    (∀ (E A B : Type) (v : A) (g : A → AsyncResult E B),
      ((AsyncResult.ok v : AsyncResult E A).chain
          (fun a => ChainRet.asyncRes (g a))).1 = Except.ok (g v))
  ∧ (∀ (E A B : Type) (v : A) (g : A → B),
      ((AsyncResult.ok v : AsyncResult E A).chain
          (fun a => ChainRet.plain (g a))).1
        = Except.ok (AsyncResult.ok (g v)))
  ∧ (∀ (E A B : Type) (e : E) (f : A → ChainRet E B),
      ((AsyncResult.err e : AsyncResult E A).chain f).1
        = Except.ok (AsyncResult.err e)) := by
  refine ⟨?_, ?_, ?_⟩
  · intro E A B v g
    rfl
  · intro E A B v g
    rfl
  · intro E A B e f
    rfl

/-- C9: every public factory hands the constructor an already-resolved
internal promise (and an empty memo slot), so it can never reject; hence on
any instance whose internal promise is resolved, every method returns a
fulfilled promise — except `unwrap` on a Failure, `unwrapErr` on a Success,
and `toPromise` on a Failure, which reject as specified (caller-supplied
functions are total in this embedding, matching the proviso that they do
not raise). -/
theorem claim_C9 :
    (∀ (E A : Type) (v : A),
      (AsyncResult.ok v : AsyncResult E A)
        = AsyncResult.mk (JSPromise.resolved (ResultData.Ok v)) none)
  ∧ (∀ (E A : Type) (e : E),
      (AsyncResult.err e : AsyncResult E A)
        = AsyncResult.mk (JSPromise.resolved (ResultData.Err e)) none)
  ∧ (∀ (E A : Type) (e : E) (v : Nullable A),
      ∃ d, AsyncResult.fromNullableWithError e v
        = AsyncResult.mk (JSPromise.resolved d) none)
  ∧ (∀ (E A C : Type) (f : Except C A) (onError : C → E),
      ∃ d, AsyncResult.tryCatch f onError
        = AsyncResult.mk (JSPromise.resolved d) none)
  ∧ (∀ (E A C : Type) (promise : Except C A) (onError : C → E),
      ∃ d, AsyncResult.fromPromise promise onError
        = AsyncResult.mk (JSPromise.resolved d) none)
  ∧ (∀ (E A B : Type) (d : ResultData E A) (s : Option (ResultData E A))
        (f : A → B),
      ∃ x, ((AsyncResult.mk (JSPromise.resolved d) s).rMap f).1 = Except.ok x)
  ∧ (∀ (E A F : Type) (d : ResultData E A) (s : Option (ResultData E A))
        (f : E → F),
      ∃ x, ((AsyncResult.mk (JSPromise.resolved d) s).rMapErr f).1
        = Except.ok x)
  ∧ (∀ (E A B : Type) (d : ResultData E A) (s : Option (ResultData E A))
        (f : A → ChainRet E B),
      ∃ x, ((AsyncResult.mk (JSPromise.resolved d) s).chain f).1
        = Except.ok x)
  ∧ (∀ (E A B : Type) (d : ResultData E A) (s : Option (ResultData E A))
        (onErr : E → B) (onOk : A → B),
      ∃ x, ((AsyncResult.mk (JSPromise.resolved d) s).matchWith onErr onOk).1
        = Except.ok x)
  ∧ (∀ (E A : Type) (d : ResultData E A) (s : Option (ResultData E A))
        (defaultValue : A),
      ∃ x, ((AsyncResult.mk (JSPromise.resolved d) s).unwrapOr
          defaultValue).1 = Except.ok x)
  ∧ (∀ (E A : Type) (d : ResultData E A) (s : Option (ResultData E A)),
      ∃ x, ((AsyncResult.mk (JSPromise.resolved d) s).isOk).1 = Except.ok x)
  ∧ (∀ (E A : Type) (d : ResultData E A) (s : Option (ResultData E A)),
      ∃ x, ((AsyncResult.mk (JSPromise.resolved d) s).isErr).1 = Except.ok x)
  ∧ (∀ (E A : Type) (v : A) (showE : E → String),
      ((AsyncResult.mk (JSPromise.resolved (ResultData.Ok v)) none
          : AsyncResult E A).unwrap showE).1 = Except.ok v)
  ∧ (∀ (E A : Type) (e : E) (showE : E → String),
      ((AsyncResult.mk (JSPromise.resolved (ResultData.Err e)) none
          : AsyncResult E A).unwrap showE).1
        = Except.error (Reject.unwrapError
            ⟨"Called unwrap on an Err value: " ++ showE e⟩))
  ∧ (∀ (E A : Type) (e : E),
      ((AsyncResult.mk (JSPromise.resolved (ResultData.Err e)) none
          : AsyncResult E A).unwrapErr).1 = Except.ok e)
  ∧ (∀ (E A : Type) (v : A),
      ((AsyncResult.mk (JSPromise.resolved (ResultData.Ok v)) none
          : AsyncResult E A).unwrapErr).1
        = Except.error (Reject.unwrapError ⟨"Called unwrapErr on an Ok value"⟩))
  ∧ (∀ (E A : Type) (v : A),
      ((AsyncResult.mk (JSPromise.resolved (ResultData.Ok v)) none
          : AsyncResult E A).toPromise).1 = Except.ok v)
  ∧ (∀ (E A : Type) (e : E),
      ((AsyncResult.mk (JSPromise.resolved (ResultData.Err e)) none
          : AsyncResult E A).toPromise).1
        = Except.error (Reject.thrownError e)) := by
  refine ⟨?_, ?_, ?_, ?_, ?_, ?_, ?_, ?_, ?_, ?_, ?_, ?_, ?_, ?_, ?_, ?_,
    ?_, ?_⟩
  · intro E A v
    rfl
  · intro E A e
    rfl
  · intro E A e v
    cases v with
    | jsNull => exact ⟨ResultData.Err e, rfl⟩
    | jsUndefined => exact ⟨ResultData.Err e, rfl⟩
    | val a => exact ⟨ResultData.Ok a, rfl⟩
  · intro E A C f onError
    cases f with
    | ok v => exact ⟨ResultData.Ok v, rfl⟩
    | error c => exact ⟨ResultData.Err (onError c), rfl⟩
  · intro E A C promise onError
    cases promise with
    | ok v => exact ⟨ResultData.Ok v, rfl⟩
    | error c => exact ⟨ResultData.Err (onError c), rfl⟩
  · intro E A B d s f
    rcases s with _ | d' <;> [skip; skip] <;>
      first
        | (rcases d with v | e
           · exact ⟨AsyncResult.ok (f v), rfl⟩
           · exact ⟨AsyncResult.err e, rfl⟩)
        | (rcases d' with v | e
           · exact ⟨AsyncResult.ok (f v), rfl⟩
           · exact ⟨AsyncResult.err e, rfl⟩)
  · intro E A F d s f
    rcases s with _ | d' <;>
      first
        | (rcases d with v | e
           · exact ⟨AsyncResult.ok v, rfl⟩
           · exact ⟨AsyncResult.err (f e), rfl⟩)
        | (rcases d' with v | e
           · exact ⟨AsyncResult.ok v, rfl⟩
           · exact ⟨AsyncResult.err (f e), rfl⟩)
  · intro E A B d s f
    rcases s with _ | d' <;>
      first
        | (rcases d with v | e
           · rcases h : f v with res | b
             · exact ⟨res, by simp [AsyncResult.chain,
                 AsyncResult.getResolvedData, h]⟩
             · exact ⟨AsyncResult.ok b, by simp [AsyncResult.chain,
                 AsyncResult.getResolvedData, h]⟩
           · exact ⟨AsyncResult.err e, rfl⟩)
        | (rcases d' with v | e
           · rcases h : f v with res | b
             · exact ⟨res, by simp [AsyncResult.chain,
                 AsyncResult.getResolvedData, h]⟩
             · exact ⟨AsyncResult.ok b, by simp [AsyncResult.chain,
                 AsyncResult.getResolvedData, h]⟩
           · exact ⟨AsyncResult.err e, rfl⟩)
  · intro E A B d s onErr onOk
    rcases s with _ | d' <;>
      first
        | (rcases d with v | e
           · exact ⟨onOk v, rfl⟩
           · exact ⟨onErr e, rfl⟩)
        | (rcases d' with v | e
           · exact ⟨onOk v, rfl⟩
           · exact ⟨onErr e, rfl⟩)
  · intro E A d s defaultValue
    rcases s with _ | d' <;>
      first
        | (rcases d with v | e
           · exact ⟨v, rfl⟩
           · exact ⟨defaultValue, rfl⟩)
        | (rcases d' with v | e
           · exact ⟨v, rfl⟩
           · exact ⟨defaultValue, rfl⟩)
  · intro E A d s
    rcases s with _ | d' <;>
      first
        | (rcases d with v | e
           · exact ⟨true, rfl⟩
           · exact ⟨false, rfl⟩)
        | (rcases d' with v | e
           · exact ⟨true, rfl⟩
           · exact ⟨false, rfl⟩)
  · intro E A d s
    rcases s with _ | d' <;>
      first
        | (rcases d with v | e
           · exact ⟨false, rfl⟩
           · exact ⟨true, rfl⟩)
        | (rcases d' with v | e
           · exact ⟨false, rfl⟩
           · exact ⟨true, rfl⟩)
  · intro E A v showE
    rfl
  · intro E A e showE
    rfl
  · intro E A e
    rfl
  · intro E A v
    rfl
  · intro E A v
    rfl
  · intro E A e
    rfl

/-- C10: the memoization slot's emptiness test is a truthiness check, and it
is sound: the initial null slot is falsy, every storable tagged union is
truthy (so a populated slot is never mistaken for the empty state, and
truthiness characterises population exactly), a populated slot is left
unchanged by further accesses which all return the identical stored tagged
union with zero awaits (the Pending-to-Resolved transition is one-way), and
the first access on a fresh resolved instance stores exactly the awaited
tagged union. -/
theorem claim_C10 :
    (∀ (E A : Type), slotIsTruthy (none : Option (ResultData E A)) = false)
  ∧ (∀ (E A : Type) (d : ResultData E A), slotIsTruthy (some d) = true)
  ∧ (∀ (E A : Type) (s : Option (ResultData E A)),
      slotIsTruthy s = true ↔ ∃ d, s = some d)
  ∧ (∀ (E A : Type) (p : JSPromise (ResultData E A)) (d : ResultData E A),
      (AsyncResult.mk p (some d)).getResolvedData
        = (Except.ok d, AsyncResult.mk p (some d), 0))
  ∧ (∀ (E A : Type) (d : ResultData E A),
      (AsyncResult.mk (JSPromise.resolved d) none).getResolvedData
        = (Except.ok d, AsyncResult.mk (JSPromise.resolved d) (some d), 1)) := by
  refine ⟨?_, ?_, ?_, ?_, ?_⟩
  · intro E A
    rfl
  · intro E A d
    rfl
  · intro E A s
    cases s <;> simp [slotIsTruthy]
  · intro E A p d
    rfl
  · intro E A d
    rfl

end ResultSpec
